import Mathlib

/-!
Verification of the Google Chrome device-trust connector
(`authentik/enterprise/stages/authenticator_endpoint/views/google_chrome/dtc.py`)
and of the LDAP directory projection exercised by
`tests/e2e/test_provider_ldap.py`.

The `DTC` namespace is a shallow embedding of
`GoogleChromeDeviceTrustConnector.get`: the flow-plan context is a
Python-style string-keyed dictionary of dynamic values, the Django
`update_or_create` calls become list upserts keyed exactly as in the
source, and every exception the Python code can raise (verification
rejection, missing session plan, `KeyError`, `IndexError`,
`AttributeError` on a wrongly-typed context entry) becomes an `Except`
error carrying the state as it stood when the exception was raised.

The `LDAP` namespace models the directory projection; its
implementation is not part of this excerpt (only its e2e tests are),
so those definitions are modelled from the spec.
-/

namespace DTC

/-- Dynamic (Python/JSON) values stored in the flow plan context and in
verified claims objects. -/
inductive Value where
  | str : String → Value
  | num : Int → Value
  | bool : Bool → Value
  | userRef : Nat → Value
  | list : List Value → Value
  | dict : List (String × Value) → Value
deriving Repr

mutual

/-- Boolean equality on dynamic values (structural). -/
def Value.beq : Value → Value → Bool
  | .str a, .str b => a == b
  | .num a, .num b => a == b
  | .bool a, .bool b => a == b
  | .userRef a, .userRef b => a == b
  | .list a, .list b => Value.beqList a b
  | .dict a, .dict b => Value.beqDict a b
  | _, _ => false

/-- Boolean equality on lists of dynamic values. -/
def Value.beqList : List Value → List Value → Bool
  | [], [] => true
  | a :: as, b :: bs => Value.beq a b && Value.beqList as bs
  | _, _ => false

/-- Boolean equality on string-keyed dictionaries of dynamic values. -/
def Value.beqDict : List (String × Value) → List (String × Value) → Bool
  | [], [] => true
  | (k, v) :: as, (k', v') :: bs => k == k' && Value.beq v v' && Value.beqDict as bs
  | _, _ => false

end

instance : BEq Value := ⟨Value.beq⟩

mutual

theorem Value.beq_iff : ∀ a b : Value, Value.beq a b = true ↔ a = b
  | .str a, .str b => by simp [Value.beq]
  | .num a, .num b => by simp [Value.beq]
  | .bool a, .bool b => by simp [Value.beq]
  | .userRef a, .userRef b => by simp [Value.beq]
  | .list a, .list b => by simp [Value.beq, Value.beqList_iff a b]
  | .dict a, .dict b => by simp [Value.beq, Value.beqDict_iff a b]
  | .str _, .num _ => by simp [Value.beq]
  | .str _, .bool _ => by simp [Value.beq]
  | .str _, .userRef _ => by simp [Value.beq]
  | .str _, .list _ => by simp [Value.beq]
  | .str _, .dict _ => by simp [Value.beq]
  | .num _, .str _ => by simp [Value.beq]
  | .num _, .bool _ => by simp [Value.beq]
  | .num _, .userRef _ => by simp [Value.beq]
  | .num _, .list _ => by simp [Value.beq]
  | .num _, .dict _ => by simp [Value.beq]
  | .bool _, .str _ => by simp [Value.beq]
  | .bool _, .num _ => by simp [Value.beq]
  | .bool _, .userRef _ => by simp [Value.beq]
  | .bool _, .list _ => by simp [Value.beq]
  | .bool _, .dict _ => by simp [Value.beq]
  | .userRef _, .str _ => by simp [Value.beq]
  | .userRef _, .num _ => by simp [Value.beq]
  | .userRef _, .bool _ => by simp [Value.beq]
  | .userRef _, .list _ => by simp [Value.beq]
  | .userRef _, .dict _ => by simp [Value.beq]
  | .list _, .str _ => by simp [Value.beq]
  | .list _, .num _ => by simp [Value.beq]
  | .list _, .bool _ => by simp [Value.beq]
  | .list _, .userRef _ => by simp [Value.beq]
  | .list _, .dict _ => by simp [Value.beq]
  | .dict _, .str _ => by simp [Value.beq]
  | .dict _, .num _ => by simp [Value.beq]
  | .dict _, .bool _ => by simp [Value.beq]
  | .dict _, .userRef _ => by simp [Value.beq]
  | .dict _, .list _ => by simp [Value.beq]

theorem Value.beqList_iff : ∀ a b : List Value, Value.beqList a b = true ↔ a = b
  | [], [] => by simp [Value.beqList]
  | a :: as, b :: bs => by
      simp [Value.beqList, Value.beq_iff a b, Value.beqList_iff as bs]
  | [], _ :: _ => by simp [Value.beqList]
  | _ :: _, [] => by simp [Value.beqList]

theorem Value.beqDict_iff : ∀ a b : List (String × Value), Value.beqDict a b = true ↔ a = b
  | [], [] => by simp [Value.beqDict]
  | (k, v) :: as, (k', v') :: bs => by
      simp [Value.beqDict, Value.beq_iff v v', Value.beqDict_iff as bs]
  | [], _ :: _ => by simp [Value.beqDict]
  | _ :: _, [] => by simp [Value.beqDict]

end

instance : LawfulBEq Value where
  eq_of_beq h := (Value.beq_iff _ _).mp h
  rfl := (Value.beq_iff _ _).mpr rfl

instance : DecidableEq Value := fun a b =>
  decidable_of_iff (Value.beq a b = true) (Value.beq_iff a b)

/-- A Python dictionary with string keys, as an association list in
insertion order (Python dicts preserve insertion order). -/
abbrev Dict := List (String × Value)

/-- Python `d[k]` as `d.get(k)`: the value stored under `k`, if any. -/
def dictGet : Dict → String → Option Value
  | [], _ => none
  | (k', v) :: rest, k => if k' = k then some v else dictGet rest k

/-- Python `d[k] = v`: replace the value under `k` in place, or append a
new entry when the key is absent. -/
def dictSet : Dict → String → Value → Dict
  | [], k, v => [(k, v)]
  | (k', v') :: rest, k, v =>
      if k' = k then (k, v) :: rest else (k', v') :: dictSet rest k v

/-- Python `d.setdefault(k, v)`: insert `v` under `k` only when the key
is absent (new keys go to the end, as in Python insertion order). -/
def dictSetdefault (d : Dict) (k : String) (v : Value) : Dict :=
  match dictGet d k with
  | some _ => d
  | none => d ++ [(k, v)]

/-- Python `d.pop(k, None)`: remove the entry under `k` if present. -/
def dictPop : Dict → String → Dict
  | [], _ => []
  | (k', v) :: rest, k => if k' = k then dictPop rest k else (k', v) :: dictPop rest k

theorem dictGet_dictSet_self (d : Dict) (k : String) (v : Value) :
    dictGet (dictSet d k v) k = some v := by
  induction d with
  | nil => simp [dictSet, dictGet]
  | cons hd tl ih =>
      obtain ⟨k', v'⟩ := hd
      by_cases h : k' = k <;> simp [dictSet, dictGet, h, ih]

theorem dictGet_dictSet_ne (d : Dict) (k k' : String) (v : Value) (h : k' ≠ k) :
    dictGet (dictSet d k v) k' = dictGet d k' := by
  induction d with
  | nil => simp [dictSet, dictGet, Ne.symm h]
  | cons hd tl ih =>
      obtain ⟨k₀, v₀⟩ := hd
      by_cases h0 : k₀ = k
      · subst h0
        simp [dictSet, dictGet, Ne.symm h]
      · by_cases h1 : k₀ = k' <;> simp [dictSet, dictGet, h0, h1, ih, h]

theorem dictGet_append (d₁ d₂ : Dict) (k : String) :
    dictGet (d₁ ++ d₂) k = ((dictGet d₁ k).or (dictGet d₂ k)) := by
  induction d₁ with
  | nil => simp [dictGet]
  | cons hd tl ih =>
      obtain ⟨k', v'⟩ := hd
      by_cases h : k' = k <;> simp [dictGet, h, ih]

theorem dictSetdefault_of_some (d : Dict) (k : String) (v w : Value)
    (h : dictGet d k = some w) : dictSetdefault d k v = d := by
  simp [dictSetdefault, h]

theorem dictGet_dictSetdefault_self (d : Dict) (k : String) (v : Value) :
    dictGet (dictSetdefault d k v) k = some ((dictGet d k).getD v) := by
  unfold dictSetdefault
  cases h : dictGet d k with
  | some w => simp [h]
  | none => simp [dictGet_append, h, dictGet]

theorem dictGet_dictSetdefault_ne (d : Dict) (k k' : String) (v : Value) (h : k' ≠ k) :
    dictGet (dictSetdefault d k v) k' = dictGet d k' := by
  unfold dictSetdefault
  cases hk : dictGet d k with
  | some w => simp
  | none =>
      rw [dictGet_append]
      cases h' : dictGet d k' with
      | some w => simp
      | none => simp [dictGet, Ne.symm h]

theorem dictGet_dictPop_self (d : Dict) (k : String) :
    dictGet (dictPop d k) k = none := by
  induction d with
  | nil => simp [dictPop, dictGet]
  | cons hd tl ih =>
      obtain ⟨k', v'⟩ := hd
      by_cases h : k' = k <;> simp_all [dictPop, dictGet, h]

theorem dictGet_dictPop_ne (d : Dict) (k k' : String) (h : k' ≠ k) :
    dictGet (dictPop d k) k' = dictGet d k' := by
  induction d with
  | nil => simp [dictPop, dictGet]
  | cons hd tl ih =>
      obtain ⟨k₀, v₀⟩ := hd
      by_cases h0 : k₀ = k
      · subst h0
        simp [dictPop, dictGet, Ne.symm h, ih]
      · by_cases h1 : k₀ = k' <;> simp_all [dictPop, dictGet, h0, h1]

mutual

/-- Python `json.dumps` on a dynamic value (the exact rendering is
irrelevant to the claims; only that the serialized challenge travels in
the response header matters). -/
def dumps : Value → String
  | .str s => "\"" ++ s ++ "\""
  | .num n => toString n
  | .bool b => if b then "true" else "false"
  | .userRef n => toString n
  | .list l => "[" ++ dumpsList l ++ "]"
  | .dict d => "\x7b" ++ dumpsDict d ++ "\x7d"

/-- Serialization of a list of dynamic values, comma separated. -/
def dumpsList : List Value → String
  | [] => ""
  | [v] => dumps v
  | v :: rest => dumps v ++ ", " ++ dumpsList rest

/-- Serialization of a dictionary of dynamic values, comma separated. -/
def dumpsDict : List (String × Value) → String
  | [] => ""
  | [(k, v)] => "\"" ++ k ++ "\": " ++ dumps v
  | (k, v) :: rest => "\"" ++ k ++ "\": " ++ dumps v ++ ", " ++ dumpsDict rest

end

/-- Header we get from chrome that initiates verified access. -/
def HEADER_DEVICE_TRUST : String := "X-Device-Trust"

/-- Header we send to the client with the challenge. -/
def HEADER_ACCESS_CHALLENGE : String := "X-Verified-Access-Challenge"

/-- Header we get back from the client that we verify with google. -/
def HEADER_ACCESS_CHALLENGE_RESPONSE : String := "X-Verified-Access-Challenge-Response"

/-- Header value for x-device-trust that initiates the flow. -/
def DEVICE_TRUST_VERIFIED_ACCESS : String := "VerifiedAccess"

/-- Modelled from the spec: the flow-plan context key holding the user
being authenticated (`PLAN_CONTEXT_PENDING_USER`; its defining module
`authentik.flows.planner` is not part of this excerpt, the spec calls
the key `pending_user`). -/
def PLAN_CONTEXT_PENDING_USER : String := "pending_user"

/-- Modelled from the spec: the flow-plan context key holding the tag of
how the user authenticated (`PLAN_CONTEXT_METHOD`; its defining module
`authentik.stages.password.stage` is not part of this excerpt, the spec
calls the key `method`). -/
def PLAN_CONTEXT_METHOD : String := "method"

/-- Modelled from the spec: the flow-plan context key holding auxiliary
authentication evidence (`PLAN_CONTEXT_METHOD_ARGS`; its defining module
`authentik.stages.password.stage` is not part of this excerpt, the spec
calls the key `method_args`). -/
def PLAN_CONTEXT_METHOD_ARGS : String := "method_args"

/-- The URL of the connector endpoint itself: the app is mounted at
`authenticators/endpoint/` (`apps.py`) and the view at `chrome/`
(`urls.py`), so `reverse` resolves to this path. -/
def chromeEndpointPath : String := "/authenticators/endpoint/chrome/"

/-- One stage binding of a flow plan; only the stage it references
matters to the connector. -/
structure StageBinding where
  stage : Nat
deriving DecidableEq, Repr

/-- An in-progress authentication attempt: ordered stage bindings plus
the mutable string-keyed context. -/
structure FlowPlan where
  bindings : List StageBinding
  context : Dict
deriving DecidableEq, Repr

/-- An `EndpointDevice` row: identity key is (`host_identifier`, `user`),
`hostname` is updated on every upsert. -/
structure EndpointDevice where
  host_identifier : Value
  user : Option Value
  hostname : Value
deriving DecidableEq, Repr

/-- An `EndpointDeviceConnection` row: identity key is (device, `stage`),
`attributes` stores the verified claims and is updated on every upsert. -/
structure EndpointDeviceConnection where
  device_host_identifier : Value
  device_user : Option Value
  stage : Nat
  attributes : Dict
deriving DecidableEq, Repr

/-- Django `EndpointDevice.objects.update_or_create(host_identifier=.., user=..,
defaults=dict(hostname=..))`: update the matching row's `hostname`, or
insert a new row when no row matches the identity key. -/
def update_or_create_device (devices : List EndpointDevice)
    (hid : Value) (u : Option Value) (hn : Value) : List EndpointDevice :=
  if devices.any (fun d => d.host_identifier == hid && d.user == u) then
    devices.map (fun d =>
      if d.host_identifier == hid && d.user == u then { d with hostname := hn } else d)
  else
    devices ++ [{ host_identifier := hid, user := u, hostname := hn }]

/-- Django `EndpointDeviceConnection.objects.update_or_create(device=.., stage=..,
defaults=dict(attributes=..))`: update the matching row's `attributes`,
or insert a new row when no row matches the identity key. -/
def update_or_create_connection (conns : List EndpointDeviceConnection)
    (hid : Value) (u : Option Value) (stage : Nat) (attrs : Dict) :
    List EndpointDeviceConnection :=
  if conns.any (fun c => c.device_host_identifier == hid && c.device_user == u
      && c.stage == stage) then
    conns.map (fun c =>
      if c.device_host_identifier == hid && c.device_user == u && c.stage == stage then
        { c with attributes := attrs }
      else c)
  else
    conns ++ [{ device_host_identifier := hid, device_user := u, stage := stage,
                attributes := attrs }]

/-- One call made to the remote verified-access attestation service. -/
inductive RemoteCall where
  | generate
  | verify (payload : String)
deriving DecidableEq, Repr

/-- The remote attestation service (`self.google_client`):
`challenge().generate().execute()` yields a challenge object, and
`challenge().verify(body=loads(payload)).execute()` either rejects the
payload or yields the verified claims object. -/
structure GoogleClient where
  generateChallenge : Value
  verifyChallenge : String → Except Unit Dict

/-- An incoming HTTP request, observed through `request.headers.get`. -/
structure Request where
  headers : String → Option String

/-- The state the handler touches: the session-stored flow plan, the two
ORM tables, and the trace of remote attestation calls made so far. -/
structure St where
  session : Option FlowPlan
  devices : List EndpointDevice
  connections : List EndpointDeviceConnection
  calls : List RemoteCall
deriving Repr

/-- The responses the view can produce: a redirect carrying the
serialized challenge in the `X-Verified-Access-Challenge` header, or the
rendered waiting template. -/
inductive HResponse where
  | redirect (location : String) (challengeHeader : String)
  | template
deriving DecidableEq, Repr

/-- The unhandled Python exceptions the handler can raise, in source
order: verification rejection (`HttpError` from the google client),
`KeyError` on a missing session plan, `KeyError` on a missing claims
key, `IndexError` on `bindings[0]` of an empty plan, and
`AttributeError` when a context entry does not have the expected type. -/
inductive HandlerError where
  | verificationFailed
  | noFlowPlan
  | keyError (key : String)
  | indexError
  | typeConfusion
deriving DecidableEq, Repr

/-- Python truthiness of an optional header string: `None` and the empty
string are falsy. -/
def pyTruthy : Option String → Bool
  | none => false
  | some s => s != ""

/-- Lines 73–76 of `dtc.py`, operating in place on the flow-plan
context:
`context.setdefault(PLAN_CONTEXT_METHOD, "trusted_endpoint")`,
`context.setdefault(PLAN_CONTEXT_METHOD_ARGS, dict())`,
`context[PLAN_CONTEXT_METHOD_ARGS].setdefault("endpoints", [])`,
`context[PLAN_CONTEXT_METHOD_ARGS]["endpoints"].append(response)`.
Returns `none` when the `method_args` entry is not a dictionary or its
`endpoints` entry is not a list (`AttributeError` in Python). -/
def appendEndpoint (ctx : Dict) (response : Dict) : Option Dict :=
  let ctx1 := dictSetdefault ctx PLAN_CONTEXT_METHOD (.str "trusted_endpoint")
  let ctx2 := dictSetdefault ctx1 PLAN_CONTEXT_METHOD_ARGS (.dict [])
  match dictGet ctx2 PLAN_CONTEXT_METHOD_ARGS with
  | some (.dict ma) =>
      let ma1 := dictSetdefault ma "endpoints" (.list [])
      match dictGet ma1 "endpoints" with
      | some (.list endpoints) =>
          some (dictSet ctx2 PLAN_CONTEXT_METHOD_ARGS
            (.dict (dictSet ma1 "endpoints" (.list (endpoints ++ [.dict response])))))
      | _ => none
  | _ => none

/-- The view method `GoogleChromeDeviceTrustConnector.get`. Success carries the response
and the final state; an error carries the exception and the state as it
stood when the exception was raised (Django persists completed ORM
writes even when the request then fails, while the session plan is only
persisted by the explicit re-assignment at the end). -/
def get (client : GoogleClient) (req : Request) (st : St) :
    Except (HandlerError × St) (HResponse × St) :=
  let x_device_trust := req.headers HEADER_DEVICE_TRUST
  let x_access_challenge_response := req.headers HEADER_ACCESS_CHALLENGE_RESPONSE
  if x_device_trust = some DEVICE_TRUST_VERIFIED_ACCESS
      ∧ x_access_challenge_response = none then
    let challenge := client.generateChallenge
    let st := { st with calls := st.calls ++ [.generate] }
    .ok (.redirect chromeEndpointPath (dumps challenge), st)
  else
    match x_access_challenge_response with
    | none => .ok (.template, st)
    | some payload =>
      if payload = "" then .ok (.template, st)
      else
        let st := { st with calls := st.calls ++ [.verify payload] }
        match client.verifyChallenge payload with
        | .error _ => .error (.verificationFailed, st)
        | .ok response0 =>
          -- Remove deprecated string representation of deviceSignals
          let response := dictPop response0 "deviceSignal"
          match st.session with
          | none => .error (.noFlowPlan, st)
          | some flow_plan =>
            match dictGet response "serialNumber" with
            | none => .error (.keyError "serialNumber", st)
            | some serial =>
              let pending_user := dictGet flow_plan.context PLAN_CONTEXT_PENDING_USER
              match dictGet response "hostname" with
              | none => .error (.keyError "hostname", st)
              | some hn =>
                let st := { st with
                  devices := update_or_create_device st.devices serial pending_user hn }
                match flow_plan.bindings with
                | [] => .error (.indexError, st)
                | binding0 :: _ =>
                  let st := { st with
                    connections := update_or_create_connection st.connections
                      serial pending_user binding0.stage response }
                  match appendEndpoint flow_plan.context response with
                  | none => .error (.typeConfusion, st)
                  | some ctx3 =>
                    let st := { st with
                      session := some { flow_plan with context := ctx3 } }
                    .ok (.template, st)

/-- The `method_args.endpoints` list of a flow-plan context, when the
context holds one. -/
def contextEndpoints (ctx : Dict) : Option (List Value) :=
  match dictGet ctx PLAN_CONTEXT_METHOD_ARGS with
  | some (.dict ma) =>
      match dictGet ma "endpoints" with
      | some (.list l) => some l
      | _ => none
  | _ => none

/-- The identity keys of the `EndpointDevice` table, in row order. -/
def deviceIds (l : List EndpointDevice) : List (Value × Option Value) :=
  l.map (fun d => (d.host_identifier, d.user))

/-- The identity keys of the `EndpointDeviceConnection` table, in row
order. -/
def connectionIds (l : List EndpointDeviceConnection) :
    List ((Value × Option Value) × Nat) :=
  l.map (fun c => ((c.device_host_identifier, c.device_user), c.stage))

/-- The remote-call trace of a handler outcome, error or not. -/
def resultCalls : Except (HandlerError × St) (HResponse × St) → List RemoteCall
  | .ok (_, s) => s.calls
  | .error (_, s) => s.calls

theorem contextEndpoints_inv (ctx : Dict) (l : List Value)
    (h : contextEndpoints ctx = some l) :
    ∃ ma, dictGet ctx PLAN_CONTEXT_METHOD_ARGS = some (.dict ma) ∧
      dictGet ma "endpoints" = some (.list l) := by
  unfold contextEndpoints at h
  split at h
  · split at h
    · exact ⟨_, by assumption, by simp_all⟩
    · exact absurd h (by simp)
  · exact absurd h (by simp)

theorem appendEndpoint_spec (ctx response : Dict) (ma : Dict) (eps : List Value)
    (hma : dictGet ctx PLAN_CONTEXT_METHOD_ARGS = some (.dict ma))
    (heps : dictGet ma "endpoints" = some (.list eps)) :
    ∃ ctx', appendEndpoint ctx response = some ctx' ∧
      contextEndpoints ctx' = some (eps ++ [.dict response]) ∧
      dictGet ctx' PLAN_CONTEXT_METHOD
        = some ((dictGet ctx PLAN_CONTEXT_METHOD).getD (.str "trusted_endpoint")) ∧
      (∀ k, k ≠ PLAN_CONTEXT_METHOD → k ≠ PLAN_CONTEXT_METHOD_ARGS →
        dictGet ctx' k = dictGet ctx k) := by
  have hkey : PLAN_CONTEXT_METHOD_ARGS ≠ PLAN_CONTEXT_METHOD := by decide
  have h1 : dictGet (dictSetdefault ctx PLAN_CONTEXT_METHOD (.str "trusted_endpoint"))
      PLAN_CONTEXT_METHOD_ARGS = some (.dict ma) := by
    rw [dictGet_dictSetdefault_ne _ _ _ _ hkey]; exact hma
  have h2 : dictSetdefault (dictSetdefault ctx PLAN_CONTEXT_METHOD
      (.str "trusted_endpoint")) PLAN_CONTEXT_METHOD_ARGS (.dict [])
      = dictSetdefault ctx PLAN_CONTEXT_METHOD (.str "trusted_endpoint") :=
    dictSetdefault_of_some _ _ _ _ h1
  have h3 : dictSetdefault ma "endpoints" (.list []) = ma :=
    dictSetdefault_of_some _ _ _ _ heps
  refine ⟨dictSet (dictSetdefault ctx PLAN_CONTEXT_METHOD (.str "trusted_endpoint"))
      PLAN_CONTEXT_METHOD_ARGS
      (.dict (dictSet ma "endpoints" (.list (eps ++ [.dict response])))),
    ?_, ?_, ?_, ?_⟩
  · simp only [appendEndpoint, h2, h1, h3, heps]
  · simp only [contextEndpoints, dictGet_dictSet_self]
  · rw [dictGet_dictSet_ne _ _ _ _ (Ne.symm hkey),
      dictGet_dictSetdefault_self]
  · intro k hk1 hk2
    rw [dictGet_dictSet_ne _ _ _ _ hk2,
      dictGet_dictSetdefault_ne _ _ _ _ hk1]

/-- The verify branch on a successful run: the exact final state, fully
explicit. -/
theorem get_verify_success (client : GoogleClient) (req : Request) (st : St)
    (payload : String) (resp : Dict) (fp : FlowPlan) (serial hn : Value)
    (b : StageBinding) (bs : List StageBinding) (ctx' : Dict)
    (hhdr : req.headers HEADER_ACCESS_CHALLENGE_RESPONSE = some payload)
    (hne : payload ≠ "")
    (hver : client.verifyChallenge payload = .ok resp)
    (hsess : st.session = some fp)
    (hser : dictGet (dictPop resp "deviceSignal") "serialNumber" = some serial)
    (hhn : dictGet (dictPop resp "deviceSignal") "hostname" = some hn)
    (hbind : fp.bindings = b :: bs)
    (hctx : appendEndpoint fp.context (dictPop resp "deviceSignal") = some ctx') :
    get client req st = .ok (.template,
      { session := some { fp with context := ctx' },
        devices := update_or_create_device st.devices serial
          (dictGet fp.context PLAN_CONTEXT_PENDING_USER) hn,
        connections := update_or_create_connection st.connections serial
          (dictGet fp.context PLAN_CONTEXT_PENDING_USER) b.stage
          (dictPop resp "deviceSignal"),
        calls := st.calls ++ [.verify payload] }) := by
  unfold get
  simp [hhdr, hne, hver, hsess, hser, hhn, hbind, hctx]

theorem any_key_update_or_create_device (l : List EndpointDevice) (hid : Value)
    (u : Option Value) (hn : Value) :
    (update_or_create_device l hid u hn).any
      (fun d => d.host_identifier == hid && d.user == u) = true := by
  unfold update_or_create_device
  split
  next h =>
    rw [List.any_eq_true] at h ⊢
    obtain ⟨d, hd, hp⟩ := h
    exact ⟨_, List.mem_map_of_mem _ hd, by simp [hp]⟩
  next h =>
    rw [List.any_eq_true]
    exact ⟨_, List.mem_append_right _ (List.mem_singleton_self _), by simp⟩

theorem deviceIds_update_or_create_of_mem (l : List EndpointDevice) (hid : Value)
    (u : Option Value) (hn : Value)
    (h : l.any (fun d => d.host_identifier == hid && d.user == u) = true) :
    deviceIds (update_or_create_device l hid u hn) = deviceIds l := by
  unfold update_or_create_device
  rw [if_pos h]
  unfold deviceIds
  rw [List.map_map]
  apply List.map_congr_left
  intro d _
  simp only [Function.comp]
  split <;> rfl

theorem any_key_update_or_create_connection (l : List EndpointDeviceConnection)
    (hid : Value) (u : Option Value) (stage : Nat) (attrs : Dict) :
    (update_or_create_connection l hid u stage attrs).any
      (fun c => c.device_host_identifier == hid && c.device_user == u
        && c.stage == stage) = true := by
  unfold update_or_create_connection
  split
  next h =>
    rw [List.any_eq_true] at h ⊢
    obtain ⟨c, hc, hp⟩ := h
    exact ⟨_, List.mem_map_of_mem _ hc, by simp [hp]⟩
  next h =>
    rw [List.any_eq_true]
    exact ⟨_, List.mem_append_right _ (List.mem_singleton_self _), by simp⟩

theorem connectionIds_update_or_create_of_mem (l : List EndpointDeviceConnection)
    (hid : Value) (u : Option Value) (stage : Nat) (attrs : Dict)
    (h : l.any (fun c => c.device_host_identifier == hid && c.device_user == u
      && c.stage == stage) = true) :
    connectionIds (update_or_create_connection l hid u stage attrs)
      = connectionIds l := by
  unfold update_or_create_connection
  rw [if_pos h]
  unfold connectionIds
  rw [List.map_map]
  apply List.map_congr_left
  intro c _
  simp only [Function.comp]
  split <;> rfl

theorem update_or_create_connection_mem (l : List EndpointDeviceConnection)
    (hid : Value) (u : Option Value) (stage : Nat) (attrs : Dict) :
    ∃ c ∈ update_or_create_connection l hid u stage attrs,
      c.device_host_identifier = hid ∧ c.device_user = u ∧ c.stage = stage ∧
      c.attributes = attrs := by
  unfold update_or_create_connection
  split
  next h =>
    rw [List.any_eq_true] at h
    obtain ⟨c, hc, hp⟩ := h
    simp only [Bool.and_eq_true, beq_iff_eq] at hp
    obtain ⟨⟨hp1, hp2⟩, hp3⟩ := hp
    refine ⟨_, List.mem_map_of_mem _ hc, ?_⟩
    simp [hp1, hp2, hp3]
  next h =>
    exact ⟨_, List.mem_append_right _ (List.mem_singleton_self _),
      rfl, rfl, rfl, rfl⟩

/-- C1: with an existing `method_args.endpoints` list of N entries in the
flow-plan context, one successful verification of a challenge response
yields N+1 entries, the prior N unchanged and in their original
positions; the `method` key is set to the fixed tag `trusted_endpoint`
only if it was previously unset, and an existing value is never
overwritten. -/
theorem C1_verify_appends_preserving (client : GoogleClient) (req : Request)
    (st : St) (payload : String) (resp : Dict) (fp : FlowPlan)
    (serial hn : Value) (b : StageBinding) (bs : List StageBinding)
    (ma : Dict) (eps : List Value)
    (hhdr : req.headers HEADER_ACCESS_CHALLENGE_RESPONSE = some payload)
    (hne : payload ≠ "")
    (hver : client.verifyChallenge payload = .ok resp)
    (hsess : st.session = some fp)
    (hser : dictGet (dictPop resp "deviceSignal") "serialNumber" = some serial)
    (hhn : dictGet (dictPop resp "deviceSignal") "hostname" = some hn)
    (hbind : fp.bindings = b :: bs)
    (hma : dictGet fp.context PLAN_CONTEXT_METHOD_ARGS = some (.dict ma))
    (heps : dictGet ma "endpoints" = some (.list eps)) :
    ∃ st' fp' eps', get client req st = .ok (.template, st') ∧
      st'.session = some fp' ∧
      contextEndpoints fp'.context = some eps' ∧
      eps' = eps ++ [.dict (dictPop resp "deviceSignal")] ∧
      eps'.length = eps.length + 1 ∧
      eps'.take eps.length = eps ∧
      dictGet fp'.context PLAN_CONTEXT_METHOD
        = some ((dictGet fp.context PLAN_CONTEXT_METHOD).getD
            (.str "trusted_endpoint")) ∧
      (∀ v, dictGet fp.context PLAN_CONTEXT_METHOD = some v →
        dictGet fp'.context PLAN_CONTEXT_METHOD = some v) := by
  obtain ⟨ctx', hap, hce, hm, _⟩ :=
    appendEndpoint_spec fp.context (dictPop resp "deviceSignal") ma eps hma heps
  refine ⟨_, { fp with context := ctx' }, eps ++ [.dict (dictPop resp "deviceSignal")],
    get_verify_success client req st payload resp fp serial hn b bs ctx'
      hhdr hne hver hsess hser hhn hbind hap,
    rfl, hce, rfl, by simp, List.take_left eps _, hm, ?_⟩
  intro v hv
  rw [hm, hv]
  rfl

/-- C2: with a non-empty challenge-response header, a rejected
verification or a missing session flow plan propagates as an unhandled
error, and in both cases neither the session plan nor the
`EndpointDevice` / `EndpointDeviceConnection` tables have been
mutated. -/
theorem C2_failure_propagates_without_mutation (client : GoogleClient)
    (req : Request) (st : St) (payload : String)
    (hhdr : req.headers HEADER_ACCESS_CHALLENGE_RESPONSE = some payload)
    (hne : payload ≠ "") :
    ((∃ e, client.verifyChallenge payload = .error e) →
      ∃ st', get client req st = .error (.verificationFailed, st') ∧
        st'.session = st.session ∧ st'.devices = st.devices ∧
        st'.connections = st.connections) ∧
    (∀ resp, client.verifyChallenge payload = .ok resp → st.session = none →
      ∃ st', get client req st = .error (.noFlowPlan, st') ∧
        st'.session = st.session ∧ st'.devices = st.devices ∧
        st'.connections = st.connections) := by
  constructor
  · rintro ⟨e, he⟩
    refine ⟨{ st with calls := st.calls ++ [.verify payload] }, ?_, rfl, rfl, rfl⟩
    unfold get
    simp [hhdr, hne, he]
  · intro resp hok hnone
    refine ⟨{ st with calls := st.calls ++ [.verify payload] }, ?_, rfl, rfl, rfl⟩
    unfold get
    simp [hhdr, hne, hok, hnone]

/-- C6: a request with `X-Device-Trust: VerifiedAccess` and no
challenge-response header is answered by a redirect to the connector
endpoint carrying the serialized fresh challenge in the
`X-Verified-Access-Challenge` header, with no mutation of the session
flow plan or of any stored state. -/
theorem C6_challenge_issuance_no_mutation (client : GoogleClient)
    (req : Request) (st : St)
    (hdt : req.headers HEADER_DEVICE_TRUST = some DEVICE_TRUST_VERIFIED_ACCESS)
    (hnr : req.headers HEADER_ACCESS_CHALLENGE_RESPONSE = none) :
    ∃ st', get client req st
        = .ok (.redirect chromeEndpointPath (dumps client.generateChallenge), st') ∧
      st'.session = st.session ∧ st'.devices = st.devices ∧
      st'.connections = st.connections ∧
      st'.calls = st.calls ++ [.generate] := by
  refine ⟨{ st with calls := st.calls ++ [.generate] }, ?_, rfl, rfl, rfl, rfl⟩
  unfold get
  simp [hdt, hnr]

/-- C9: on a successful verification the deprecated `deviceSignal` field
is removed before any persistence: the attributes stored on the upserted
`EndpointDeviceConnection` and the entry appended to
`method_args.endpoints` are both the popped claims object, which no
longer holds the key `deviceSignal` while every other claim field is
preserved verbatim. -/
theorem C9_deviceSignal_stripped (client : GoogleClient) (req : Request)
    (st : St) (payload : String) (resp : Dict) (fp : FlowPlan)
    (serial hn : Value) (b : StageBinding) (bs : List StageBinding)
    (ma : Dict) (eps : List Value)
    (hhdr : req.headers HEADER_ACCESS_CHALLENGE_RESPONSE = some payload)
    (hne : payload ≠ "")
    (hver : client.verifyChallenge payload = .ok resp)
    (hsess : st.session = some fp)
    (hser : dictGet (dictPop resp "deviceSignal") "serialNumber" = some serial)
    (hhn : dictGet (dictPop resp "deviceSignal") "hostname" = some hn)
    (hbind : fp.bindings = b :: bs)
    (hma : dictGet fp.context PLAN_CONTEXT_METHOD_ARGS = some (.dict ma))
    (heps : dictGet ma "endpoints" = some (.list eps)) :
    ∃ st' fp' c, get client req st = .ok (.template, st') ∧
      st'.session = some fp' ∧
      c ∈ st'.connections ∧
      c.device_host_identifier = serial ∧
      c.device_user = dictGet fp.context PLAN_CONTEXT_PENDING_USER ∧
      c.stage = b.stage ∧
      c.attributes = dictPop resp "deviceSignal" ∧
      dictGet c.attributes "deviceSignal" = none ∧
      contextEndpoints fp'.context
        = some (eps ++ [.dict (dictPop resp "deviceSignal")]) ∧
      dictGet (dictPop resp "deviceSignal") "deviceSignal" = none ∧
      (∀ k, k ≠ "deviceSignal" →
        dictGet (dictPop resp "deviceSignal") k = dictGet resp k) := by
  obtain ⟨ctx', hap, hce, _, _⟩ :=
    appendEndpoint_spec fp.context (dictPop resp "deviceSignal") ma eps hma heps
  obtain ⟨c, hcmem, hc1, hc2, hc3, hc4⟩ :=
    update_or_create_connection_mem st.connections serial
      (dictGet fp.context PLAN_CONTEXT_PENDING_USER) b.stage
      (dictPop resp "deviceSignal")
  refine ⟨_, { fp with context := ctx' }, c,
    get_verify_success client req st payload resp fp serial hn b bs ctx'
      hhdr hne hver hsess hser hhn hbind hap,
    rfl, hcmem, hc1, hc2, hc3, hc4, ?_, hce, dictGet_dictPop_self _ _,
    fun k hk => dictGet_dictPop_ne _ _ _ hk⟩
  rw [hc4]
  exact dictGet_dictPop_self _ _

/-- C5: replaying the same already-verified challenge response leaves
the `EndpointDevice` and `EndpointDeviceConnection` identity sets
unchanged, but appends a second, duplicate claims entry to
`method_args.endpoints`: the list is an at-least-once append, not
deduplicated by serial number. -/
theorem C5_replay_appends_duplicate (client : GoogleClient) (req : Request)
    (st : St) (payload : String) (resp : Dict) (fp : FlowPlan)
    (serial hn : Value) (b : StageBinding) (bs : List StageBinding)
    (ma : Dict) (eps : List Value)
    (hhdr : req.headers HEADER_ACCESS_CHALLENGE_RESPONSE = some payload)
    (hne : payload ≠ "")
    (hver : client.verifyChallenge payload = .ok resp)
    (hsess : st.session = some fp)
    (hser : dictGet (dictPop resp "deviceSignal") "serialNumber" = some serial)
    (hhn : dictGet (dictPop resp "deviceSignal") "hostname" = some hn)
    (hbind : fp.bindings = b :: bs)
    (hma : dictGet fp.context PLAN_CONTEXT_METHOD_ARGS = some (.dict ma))
    (heps : dictGet ma "endpoints" = some (.list eps)) :
    ∃ st1 st2 fp1 fp2,
      get client req st = .ok (.template, st1) ∧
      get client req st1 = .ok (.template, st2) ∧
      deviceIds st2.devices = deviceIds st1.devices ∧
      connectionIds st2.connections = connectionIds st1.connections ∧
      st1.session = some fp1 ∧ st2.session = some fp2 ∧
      contextEndpoints fp1.context
        = some (eps ++ [.dict (dictPop resp "deviceSignal")]) ∧
      contextEndpoints fp2.context
        = some (eps ++ [.dict (dictPop resp "deviceSignal"),
            .dict (dictPop resp "deviceSignal")]) := by
  obtain ⟨ctx1, hap1, hce1, _, hfr1⟩ :=
    appendEndpoint_spec fp.context (dictPop resp "deviceSignal") ma eps hma heps
  have hrun1 := get_verify_success client req st payload resp fp serial hn b bs
    ctx1 hhdr hne hver hsess hser hhn hbind hap1
  obtain ⟨ma2, hma2, heps2⟩ := contextEndpoints_inv ctx1 _ hce1
  obtain ⟨ctx2, hap2, hce2, _, _⟩ :=
    appendEndpoint_spec ctx1 (dictPop resp "deviceSignal") ma2 _ hma2 heps2
  have hpu1 : dictGet ctx1 PLAN_CONTEXT_PENDING_USER
      = dictGet fp.context PLAN_CONTEXT_PENDING_USER :=
    hfr1 PLAN_CONTEXT_PENDING_USER (by decide) (by decide)
  have hrun2 := get_verify_success client req
    { session := some { fp with context := ctx1 },
      devices := update_or_create_device st.devices serial
        (dictGet fp.context PLAN_CONTEXT_PENDING_USER) hn,
      connections := update_or_create_connection st.connections serial
        (dictGet fp.context PLAN_CONTEXT_PENDING_USER) b.stage
        (dictPop resp "deviceSignal"),
      calls := st.calls ++ [.verify payload] }
    payload resp { fp with context := ctx1 } serial hn b bs ctx2
    hhdr hne hver rfl hser hhn hbind hap2
  refine ⟨_, _, { fp with context := ctx1 }, { fp with context := ctx2 },
    hrun1, hrun2, ?_, ?_, rfl, rfl, hce1, ?_⟩
  · show deviceIds (update_or_create_device
        (update_or_create_device st.devices serial
          (dictGet fp.context PLAN_CONTEXT_PENDING_USER) hn)
        serial (dictGet ctx1 PLAN_CONTEXT_PENDING_USER) hn) = _
    rw [hpu1]
    exact deviceIds_update_or_create_of_mem _ _ _ _
      (any_key_update_or_create_device _ _ _ _)
  · show connectionIds (update_or_create_connection
        (update_or_create_connection st.connections serial
          (dictGet fp.context PLAN_CONTEXT_PENDING_USER) b.stage
          (dictPop resp "deviceSignal"))
        serial (dictGet ctx1 PLAN_CONTEXT_PENDING_USER) b.stage
        (dictPop resp "deviceSignal")) = _
    rw [hpu1]
    exact connectionIds_update_or_create_of_mem _ _ _ _ _
      (any_key_update_or_create_connection _ _ _ _ _)
  · simpa using hce2

/-- C10: the two request shapes are decided only by exact header
predicates, with the verify branch taking precedence: a redirect with a
fresh challenge is produced iff `X-Device-Trust` equals `VerifiedAccess`
and the challenge-response header is literally absent; whenever a
non-empty challenge-response header is present (even alongside
`X-Device-Trust: VerifiedAccess`) the remote verify call runs; and an
empty-string challenge-response header matches neither branch, causing
no remote call and no state mutation, only the waiting view. -/
theorem C10_branch_dispatch (client : GoogleClient) (req : Request) (st : St) :
    ((∃ loc ch st', get client req st = .ok (.redirect loc ch, st')) ↔
      (req.headers HEADER_DEVICE_TRUST = some DEVICE_TRUST_VERIFIED_ACCESS ∧
       req.headers HEADER_ACCESS_CHALLENGE_RESPONSE = none)) ∧
    (∀ payload, req.headers HEADER_ACCESS_CHALLENGE_RESPONSE = some payload →
      payload ≠ "" →
      resultCalls (get client req st) = st.calls ++ [.verify payload]) ∧
    (req.headers HEADER_ACCESS_CHALLENGE_RESPONSE = some "" →
      get client req st = .ok (.template, st)) := by
  refine ⟨⟨?_, ?_⟩, ?_, ?_⟩
  · rintro ⟨loc, ch, st', hok⟩
    simp only [get] at hok
    split at hok
    next h => exact h
    next h =>
      exfalso
      split at hok
      · simp at hok
      · split at hok
        · simp at hok
        · split at hok
          · simp at hok
          · split at hok
            · simp at hok
            · split at hok
              · simp at hok
              · split at hok
                · simp at hok
                · split at hok
                  · simp at hok
                  · split at hok
                    · simp at hok
                    · simp at hok
  · rintro ⟨hdt, hnr⟩
    exact ⟨chromeEndpointPath, dumps client.generateChallenge,
      { st with calls := st.calls ++ [.generate] }, by unfold get; simp [hdt, hnr]⟩
  · intro payload hh hne
    simp only [get, hh]
    repeat' split
    all_goals simp_all [resultCalls]
  · intro hh
    unfold get
    simp [hh]

/-- A concrete attestation client used by the witness checks: one known
good payload yields fixed claims (with a legacy `deviceSignal` field),
anything else is rejected. -/
def wClient : GoogleClient :=
  { generateChallenge := .dict [("challenge", .str "c1")],
    verifyChallenge := fun p =>
      if p = "good" then
        .ok [("serialNumber", .str "S1"), ("hostname", .str "h1"),
             ("deviceSignal", .str "legacy"), ("extra", .num 5)]
      else .error () }

/-- The claims object `wClient` returns for the good payload. -/
def wResp : Dict :=
  [("serialNumber", .str "S1"), ("hostname", .str "h1"),
   ("deviceSignal", .str "legacy"), ("extra", .num 5)]

/-- A concrete request carrying a good challenge response. -/
def wReqVerify : Request :=
  ⟨fun k => if k = HEADER_ACCESS_CHALLENGE_RESPONSE then some "good" else none⟩

/-- A concrete request carrying a challenge response the client
rejects. -/
def wReqBad : Request :=
  ⟨fun k => if k = HEADER_ACCESS_CHALLENGE_RESPONSE then some "bad" else none⟩

/-- A concrete request initiating verified access. -/
def wReqChallenge : Request :=
  ⟨fun k => if k = HEADER_DEVICE_TRUST then some "VerifiedAccess" else none⟩

/-- A concrete request with `X-Device-Trust: VerifiedAccess` and an
empty-string challenge-response header. -/
def wReqEmpty : Request :=
  ⟨fun k => if k = HEADER_DEVICE_TRUST then some "VerifiedAccess"
            else if k = HEADER_ACCESS_CHALLENGE_RESPONSE then some "" else none⟩

/-- The pre-existing `method_args.endpoints` list of the witness flow
plan: one prior entry. -/
def wEps : List Value := [.dict [("serialNumber", .str "S0")]]

/-- The `method_args` dictionary of the witness flow plan. -/
def wMaDict : Dict := [("endpoints", .list wEps)]

/-- A concrete in-progress flow plan with a pending user and one prior
verified endpoint. -/
def wFp : FlowPlan :=
  ⟨[⟨7⟩], [(PLAN_CONTEXT_PENDING_USER, .userRef 1),
           (PLAN_CONTEXT_METHOD_ARGS, .dict wMaDict)]⟩

/-- The concrete initial state of the witness checks. -/
def wSt : St := ⟨some wFp, [], [], []⟩

/-- Witness for C1 at the concrete client, request and state. -/
theorem C1_verify_appends_preserving_witness :
    ∃ st' fp' eps', get wClient wReqVerify wSt = .ok (.template, st') ∧
      st'.session = some fp' ∧
      contextEndpoints fp'.context = some eps' ∧
      eps'.length = 2 ∧
      eps'.take 1 = wEps ∧
      dictGet fp'.context PLAN_CONTEXT_METHOD = some (.str "trusted_endpoint") := by
  obtain ⟨st', fp', eps', h1, h2, h3, -, h5, h6, h7, -⟩ :=
    C1_verify_appends_preserving wClient wReqVerify wSt "good" wResp wFp
      (.str "S1") (.str "h1") ⟨7⟩ [] wMaDict wEps
      rfl (by decide) rfl rfl rfl rfl rfl rfl rfl
  exact ⟨st', fp', eps', h1, h2, h3, h5, h6, h7⟩

/-- Witness for C2: the rejected payload and the missing flow plan both
fail without mutating anything, at concrete inputs. -/
theorem C2_failure_propagates_without_mutation_witness :
    (∃ st', get wClient wReqBad wSt = .error (.verificationFailed, st') ∧
      st'.session = wSt.session ∧ st'.devices = wSt.devices ∧
      st'.connections = wSt.connections) ∧
    (∃ st', get wClient wReqVerify ⟨none, [], [], []⟩
        = .error (.noFlowPlan, st') ∧
      st'.session = none ∧ st'.devices = [] ∧ st'.connections = []) := by
  constructor
  · exact (C2_failure_propagates_without_mutation wClient wReqBad wSt "bad"
      rfl (by decide)).1 ⟨(), rfl⟩
  · exact (C2_failure_propagates_without_mutation wClient wReqVerify
      ⟨none, [], [], []⟩ "good" rfl (by decide)).2 wResp rfl rfl

/-- Witness for C5: replaying the good response at the concrete state
keeps the identity sets and appends the duplicate entry. -/
theorem C5_replay_appends_duplicate_witness :
    ∃ st1 st2 fp1 fp2,
      get wClient wReqVerify wSt = .ok (.template, st1) ∧
      get wClient wReqVerify st1 = .ok (.template, st2) ∧
      deviceIds st2.devices = deviceIds st1.devices ∧
      connectionIds st2.connections = connectionIds st1.connections ∧
      st1.session = some fp1 ∧ st2.session = some fp2 ∧
      contextEndpoints fp2.context
        = some (wEps ++ [.dict (dictPop wResp "deviceSignal"),
            .dict (dictPop wResp "deviceSignal")]) := by
  obtain ⟨st1, st2, fp1, fp2, h1, h2, h3, h4, h5, h6, -, h8⟩ :=
    C5_replay_appends_duplicate wClient wReqVerify wSt "good" wResp wFp
      (.str "S1") (.str "h1") ⟨7⟩ [] wMaDict wEps
      rfl (by decide) rfl rfl rfl rfl rfl rfl rfl
  exact ⟨st1, st2, fp1, fp2, h1, h2, h3, h4, h5, h6, h8⟩

/-- Witness for C6: the concrete challenge-initiation request redirects
with the serialized challenge and mutates nothing. -/
theorem C6_challenge_issuance_no_mutation_witness :
    ∃ st', get wClient wReqChallenge wSt
        = .ok (.redirect chromeEndpointPath (dumps wClient.generateChallenge), st') ∧
      st'.session = wSt.session ∧ st'.devices = wSt.devices ∧
      st'.connections = wSt.connections ∧
      st'.calls = wSt.calls ++ [.generate] :=
  C6_challenge_issuance_no_mutation wClient wReqChallenge wSt rfl rfl

/-- Witness for C9 at the concrete inputs: the persisted connection
attributes and popped claims lack `deviceSignal`, other fields
survive. -/
theorem C9_deviceSignal_stripped_witness :
    ∃ st' fp' c, get wClient wReqVerify wSt = .ok (.template, st') ∧
      st'.session = some fp' ∧
      c ∈ st'.connections ∧
      c.attributes = dictPop wResp "deviceSignal" ∧
      dictGet c.attributes "deviceSignal" = none ∧
      dictGet (dictPop wResp "deviceSignal") "serialNumber"
        = dictGet wResp "serialNumber" := by
  obtain ⟨st', fp', c, h1, h2, h3, -, -, -, h7, h8, -, -, h11⟩ :=
    C9_deviceSignal_stripped wClient wReqVerify wSt "good" wResp wFp
      (.str "S1") (.str "h1") ⟨7⟩ [] wMaDict wEps
      rfl (by decide) rfl rfl rfl rfl rfl rfl rfl
  exact ⟨st', fp', c, h1, h2, h3, h7, h8, h11 "serialNumber" (by decide)⟩

/-- Witness for C10: all three header-dispatch facts at concrete
requests. -/
theorem C10_branch_dispatch_witness :
    (∃ loc ch st', get wClient wReqChallenge wSt = .ok (.redirect loc ch, st')) ∧
    resultCalls (get wClient wReqVerify wSt) = [.verify "good"] ∧
    get wClient wReqEmpty wSt = .ok (.template, wSt) := by
  refine ⟨?_, ?_, ?_⟩
  · exact (C10_branch_dispatch wClient wReqChallenge wSt).1.mpr ⟨rfl, rfl⟩
  · exact ((C10_branch_dispatch wClient wReqVerify wSt).2.1 "good" rfl
      (by decide)).trans rfl
  · exact (C10_branch_dispatch wClient wReqEmpty wSt).2.2 rfl

end DTC

namespace LDAP

/-- Modelled from the spec: the fixed base suffix of the directory tree
used by the e2e tests (the LDAP provider implementation is not part of
this excerpt). -/
def baseSuffix : String := "dc=ldap,dc=goauthentik,dc=io"

/-- Modelled from the spec: a user of the identity store as the
directory projection and the bind operation see it (the provider
implementation is not part of this excerpt; fields follow §3 and §4.2 of
the spec). -/
structure User where
  pk : Nat
  username : String
  name : String
  email : String
  password : String
  groups : List String
  attributes : List (String × String)
  isActive : Bool
  isSuperuser : Bool
deriving DecidableEq, Repr

/-- Modelled from the spec: the DN of a user entry,
`cn=<username>,ou=users,<base-suffix>`. -/
def userDN (username : String) : String :=
  "cn=" ++ username ++ ",ou=users," ++ baseSuffix

/-- Modelled from the spec: the DN rendered for one group membership,
`cn=<group-name>,ou=groups,<base-suffix>`. -/
def groupDN (g : String) : String :=
  "cn=" ++ g ++ ",ou=groups," ++ baseSuffix

/-- Modelled from the spec: `uidNumber`/`gidNumber` are the fixed offset
2000 plus the primary key, rendered as a decimal string. -/
def uidNumber (pk : Nat) : String := toString (2000 + pk)

/-- Modelled from the spec: a computed directory entry (derived, never
stored; §3 "Directory entry (projection)"). -/
structure Entry where
  dn : String
  cn : String
  uidNumber : String
  gidNumber : String
  memberOf : List String
  accountStatus : String
  superuser : String
  extraAttributes : List (String × String)
deriving DecidableEq, Repr

/-- Modelled from the spec: the search projection for one user: `dn` and
the numeric attributes are deterministic functions of username and
primary key, `memberOf` renders one DN per group, booleans render as the
literal strings true/false, free-form user attributes are merged in
verbatim. -/
def searchEntry (u : User) : Entry :=
  { dn := userDN u.username,
    cn := u.username,
    uidNumber := uidNumber u.pk,
    gidNumber := uidNumber u.pk,
    memberOf := u.groups.map groupDN,
    accountStatus := if u.isActive then "true" else "false",
    superuser := if u.isSuperuser then "true" else "false",
    extraAttributes := u.attributes }

/-- The principal snapshot carried by audit events (pk, email,
username). -/
structure Principal where
  pk : Nat
  email : String
  username : String
deriving DecidableEq, Repr

/-- Audit event actions emitted by the bind operation. -/
inductive EventAction where
  | login
  | login_failed
deriving DecidableEq, Repr

/-- One audit event: an action plus the principal snapshot it is
attributed to. -/
structure Event where
  action : EventAction
  user : Principal
deriving DecidableEq, Repr

/-- Outcome of a bind as seen by the directory client. -/
inductive BindResult where
  | success
  | invalidCredentials
deriving DecidableEq, Repr

/-- Modelled from the spec: resolve the username taken from a bind DN
against the user store. -/
def findUser (directory : List User) (username : String) : Option User :=
  directory.find? (fun u => u.username == username)

/-- Modelled from the spec: the bind operation (§4.2): resolve the user
by username and verify the credential; success emits one `LOGIN` event
with the user's principal snapshot; any failure — unknown username or
wrong credential — surfaces an invalid-credentials condition and emits a
`LOGIN_FAILED` event attributed to the anonymous principal. -/
def bind (directory : List User) (anon : Principal)
    (username password : String) : BindResult × List Event :=
  match findUser directory username with
  | none => (.invalidCredentials, [{ action := .login_failed, user := anon }])
  | some u =>
      if u.password = password then
        (.success, [{ action := .login,
                      user := { pk := u.pk, email := u.email,
                                username := u.username } }])
      else (.invalidCredentials, [{ action := .login_failed, user := anon }])

theorem groupDN_injective : Function.Injective groupDN := by
  intro a b hab
  unfold groupDN at hab
  have hd := congrArg String.data hab
  simp only [String.data_append] at hd
  exact String.ext (List.append_cancel_left
    (List.append_cancel_right (List.append_cancel_right hd)))

/-- C3: the directory entry is deterministic in username and primary
key: `dn` equals `cn=<username>,ou=users,<base-suffix>`, and
`uidNumber`/`gidNumber` equal the decimal rendering of 2000 plus the
primary key; two users agreeing on username and pk yield byte-identical
`dn`/`uidNumber`/`gidNumber`, so repeated searches are stable. -/
theorem C3_entry_deterministic (u v : User)
    (h1 : u.username = v.username) (h2 : u.pk = v.pk) :
    (searchEntry u).dn = "cn=" ++ u.username ++ ",ou=users," ++ baseSuffix ∧
    (searchEntry u).uidNumber = toString (2000 + u.pk) ∧
    (searchEntry u).gidNumber = toString (2000 + u.pk) ∧
    (searchEntry u).dn = (searchEntry v).dn ∧
    (searchEntry u).uidNumber = (searchEntry v).uidNumber ∧
    (searchEntry u).gidNumber = (searchEntry v).gidNumber := by
  simp [searchEntry, userDN, uidNumber, h1, h2]

/-- C7: `memberOf` is, as a set and even as a multiset, exactly one DN
of the form `cn=<group-name>,ou=groups,<base-suffix>` per group the user
belongs to: no group is omitted and no extra DN appears. -/
theorem C7_memberOf_exact (u : User) :
    (∀ d, d ∈ (searchEntry u).memberOf ↔ ∃ g ∈ u.groups, d = groupDN g) ∧
    (∀ g, (searchEntry u).memberOf.count (groupDN g) = u.groups.count g) := by
  constructor
  · intro d
    simp only [searchEntry, List.mem_map]
    exact ⟨fun ⟨g, hg, he⟩ => ⟨g, hg, he.symm⟩, fun ⟨g, hg, he⟩ => ⟨g, hg, he.symm⟩⟩
  · intro g
    exact List.count_map_of_injective u.groups groupDN groupDN_injective g

/-- C4: every bind with invalid credentials — wrong password or unknown
username — yields the invalid-credentials outcome together with exactly
one `LOGIN_FAILED` event attributed to the anonymous principal; the
output is one constant shape, so it neither names the targeted user nor
distinguishes user-not-found from wrong-password. -/
theorem C4_bind_invalid_anonymous (directory : List User) (anon : Principal)
    (username password : String)
    (h : ∀ u, findUser directory username = some u → u.password ≠ password) :
    bind directory anon username password
      = (.invalidCredentials, [{ action := .login_failed, user := anon }]) := by
  unfold bind
  cases hf : findUser directory username with
  | none => rfl
  | some u => simp [h u hf]

/-- C8: every bind with a valid (username, correct password) pair
succeeds and emits exactly one `LOGIN` event whose principal snapshot
matches the bound user's pk, email and username. -/
theorem C8_bind_valid_login_event (directory : List User) (anon : Principal)
    (username password : String) (u : User)
    (hfind : findUser directory username = some u)
    (hpw : u.password = password) :
    bind directory anon username password
      = (.success, [{ action := .login,
                      user := { pk := u.pk, email := u.email,
                                username := u.username } }]) := by
  unfold bind
  rw [hfind]
  simp [hpw]

/-- A concrete user for witness checks (the spec's §8 scenario: alice,
pk 42, one custom attribute, member of admins). -/
def wAlice : User :=
  ⟨42, "alice", "Alice A", "alice@goauthentik.test", "pw1", ["admins"],
   [("extraAttribute", "bar")], true, true⟩

/-- A second user agreeing with `wAlice` only on username and pk. -/
def wAliceOther : User :=
  ⟨42, "alice", "Other", "other@goauthentik.test", "pw2", [], [], false, false⟩

/-- The anonymous principal used by the witness checks. -/
def wAnon : Principal := ⟨0, "", "AnonymousUser"⟩

/-- Witness for C3: concrete entries agree and render `uidNumber`
2042. -/
theorem C3_entry_deterministic_witness :
    (searchEntry wAlice).uidNumber = "2042" ∧
    (searchEntry wAlice).dn = (searchEntry wAliceOther).dn ∧
    (searchEntry wAlice).gidNumber = (searchEntry wAliceOther).gidNumber := by
  obtain ⟨-, h2, -, h4, -, h6⟩ := C3_entry_deterministic wAlice wAliceOther rfl rfl
  exact ⟨h2.trans rfl, h4, h6⟩

/-- Witness for C4: a wrong password and an unknown username both
produce the constant anonymous `LOGIN_FAILED` outcome on a concrete
directory. -/
theorem C4_bind_invalid_anonymous_witness :
    bind [wAlice] wAnon "alice" "wrong"
      = (.invalidCredentials, [{ action := .login_failed, user := wAnon }]) ∧
    bind [wAlice] wAnon "bob" "pw1"
      = (.invalidCredentials, [{ action := .login_failed, user := wAnon }]) := by
  constructor
  · exact C4_bind_invalid_anonymous [wAlice] wAnon "alice" "wrong"
      (fun u hu => by rw [← Option.some.inj hu]; decide)
  · exact C4_bind_invalid_anonymous [wAlice] wAnon "bob" "pw1"
      (fun u hu => by exact Option.noConfusion hu)

/-- Witness for C8: the valid concrete bind succeeds with alice's
principal snapshot. -/
theorem C8_bind_valid_login_event_witness :
    bind [wAlice] wAnon "alice" "pw1"
      = (.success, [{ action := .login,
                      user := { pk := 42, email := "alice@goauthentik.test",
                                username := "alice" } }]) :=
  C8_bind_valid_login_event [wAlice] wAnon "alice" "pw1" wAlice rfl rfl

end LDAP
